import Mathlib

/-!
Shallow embedding of the OJT backend's authentication and profile-record
subsystem (src/server.js and src/Student.js).

The document store is modelled as explicit state: a list of account records
(the `User` collection) and a list of student records (the `Student`
collection), with store-assigned increasing numeric identifiers standing in
for ObjectIds.  bcrypt is modelled as a deterministic one-way tagging
function together with its comparison; jwt.sign is modelled as a record of
the signed claims plus the fixed 7-day expiry.  The wall clock is an
explicit `now : Nat` parameter; storage availability of the Student.create
step is an explicit `persistOk : Bool` parameter (the catch-all handler in
the route maps every thrown error to the generic 500 response).
-/

/-- JS String.prototype.trim whitespace test, restricted to the ASCII
whitespace the inputs of interest contain. -/
def isWs (c : Char) : Bool := c = ' ' || c = '\t' || c = '\n' || c = '\r'

/-- Drop leading whitespace characters. -/
def dropLeading : List Char → List Char
  | [] => []
  | c :: cs => if isWs c then dropLeading cs else c :: cs

/-- Model of JS `s.trim()`: drop whitespace at both ends. -/
def jsTrim (s : String) : String :=
  String.mk ((dropLeading ((dropLeading s.data).reverse)).reverse)

/-- Model of JS `s.split(',')` on the underlying character list: groups of
characters separated by each comma. -/
def splitCommaChars : List Char → List (List Char)
  | [] => [[]]
  | c :: cs =>
    if c = ',' then [] :: splitCommaChars cs
    else
      match splitCommaChars cs with
      | [] => [[c]]
      | g :: gs => (c :: g) :: gs

/-- Model of JS `s.split(',')`. -/
def splitComma (s : String) : List String :=
  (splitCommaChars s.data).map String.mk

/-- server.js line 108: `skills.split(',').map(s => s.trim()).filter(s => s)` —
split on commas, trim each piece, drop the empty pieces. -/
def splitSkills (s : String) : List String :=
  ((splitComma s).map jsTrim).filter (fun x => x != "")

/-- Deterministic model of `bcrypt.hash(p, 10)`: a one-way tag of the
plaintext.  Faithful to the uses in server.js, where the hash is only ever
consumed by `bcrypt.compare`. -/
def bcryptHash (p : String) : String := "bcrypt$" ++ p

/-- Model of `bcrypt.compare(p, h)`: true exactly when `h` is the hash of
`p`. -/
def bcryptCompare (p h : String) : Bool := bcryptHash p == h

/-- The claims `jwt.sign` embeds in server.js: `{ userId, role }`. -/
structure JwtClaims where
  userId : Nat
  role : String
deriving Repr, DecidableEq

/-- A signed session token: the embedded claims plus the fixed validity
window passed as `expiresIn: '7d'`. -/
structure Jwt where
  claims : JwtClaims
  expiresInDays : Nat
deriving Repr, DecidableEq

/-- Model of `jwt.sign(claims, secret, { expiresIn: '7d' })`. -/
def jwtSign (c : JwtClaims) : Jwt := { claims := c, expiresInDays := 7 }

/-- Decoding a token recovers the embedded claims. -/
def jwtDecode (t : Jwt) : JwtClaims := t.claims

/-- One record of the `User` collection: identifier, email, salted password
hash, role. -/
structure Account where
  id : Nat
  email : String
  passwordHash : String
  role : String
deriving Repr, DecidableEq

/-- One record of the `Student` collection (src/Student.js schema).
`project` is the only optional String path; `skills` is an array of
strings; createdAt/updatedAt are Date paths modelled as logical time. -/
structure Student where
  id : Nat
  userId : Nat
  email : String
  fullName : String
  department : String
  project : Option String
  skills : List String
  school : String
  course : String
  yearLevel : String
  contactNumber : String
  address : String
  startDate : String
  endDate : String
  createdAt : Nat
  updatedAt : Nat
deriving Repr, DecidableEq

/-- The persisted state: the two collections plus the store's next fresh
identifiers. -/
structure DB where
  users : List Account
  students : List Student
  nextUserId : Nat
  nextStudentId : Nat
deriving Repr, DecidableEq

/-- `User.findOne({ email })`. -/
def findUserByEmail (db : DB) (email : String) : Option Account :=
  db.users.find? (fun u => u.email == email)

/-- `User.findById(id)`. -/
def findUserById (db : DB) (uid : Nat) : Option Account :=
  db.users.find? (fun u => u.id == uid)

/-- `Student.findOne({ userId })`. -/
def findStudentByUserId (db : DB) (uid : Nat) : Option Student :=
  db.students.find? (fun s => s.userId == uid)

/-- `Student.findById(id)`. -/
def findStudentById (db : DB) (sid : Nat) : Option Student :=
  db.students.find? (fun s => s.id == sid)

/-- The public account view the login and register responses carry:
`{ id, email, role }`. -/
structure UserView where
  id : Nat
  email : String
  role : String
deriving Repr, DecidableEq

/-- Outcome of POST /api/login as seen by the caller.  Both the missing
email and the failed bcrypt comparison return the identical
401 `{ success: false, error: 'Invalid credentials' }` response, which is
the single `invalidCredentials` constructor here. -/
inductive LoginResult where
  | success (role : String) (token : Jwt) (user : UserView)
  | invalidCredentials
deriving Repr, DecidableEq

/-- POST /api/login (server.js lines 50–83).  Pure in the store. -/
def login (db : DB) (email password : String) : LoginResult :=
  match findUserByEmail db email with
  | none => .invalidCredentials
  | some user =>
    if bcryptCompare password user.passwordHash then
      .success user.role (jwtSign { userId := user.id, role := user.role })
        { id := user.id, email := user.email, role := user.role }
    else .invalidCredentials

/-- The POST /api/register request body after
`const { email, password, ...studentData } = req.body`: email and password,
the profile fields (each possibly absent from the JSON body, hence
`Option`), and a possible extra caller-supplied `role` field, which lands in
`studentData` and is read by nothing. -/
structure RegisterReq where
  email : String
  password : String
  fullName : Option String
  department : Option String
  project : Option String
  skills : Option String
  school : Option String
  course : Option String
  yearLevel : Option String
  contactNumber : Option String
  address : Option String
  startDate : Option String
  endDate : Option String
  role : Option String
deriving Repr, DecidableEq

/-- Whether the body carries everything the Student.create call needs:
the schema's required String paths, plus `skills`, whose absence makes
`studentData.skills.split(',')` itself throw before the create runs.
Either way the thrown error lands in the route's catch. -/
def hasRequiredFields (r : RegisterReq) : Bool :=
  r.skills.isSome && r.fullName.isSome && r.department.isSome &&
  r.school.isSome && r.course.isSome && r.yearLevel.isSome &&
  r.contactNumber.isSome && r.address.isSome && r.startDate.isSome &&
  r.endDate.isSome

/-- The Student record built by the Student.create call at server.js
lines 102–116 (only evaluated when `hasRequiredFields` guards the
defaults): `project` is kept only when the raw department input is "IT",
`skills` is the split/trim/filter of the comma-separated input, and both
timestamps default to the creation time. -/
def mkStudent (sid uid : Nat) (req : RegisterReq) (now : Nat) : Student :=
  { id := sid
    userId := uid
    email := req.email
    fullName := req.fullName.getD ""
    department := req.department.getD ""
    project := if req.department.getD "" == "IT" then req.project else none
    skills := splitSkills (req.skills.getD "")
    school := req.school.getD ""
    course := req.course.getD ""
    yearLevel := req.yearLevel.getD ""
    contactNumber := req.contactNumber.getD ""
    address := req.address.getD ""
    startDate := req.startDate.getD ""
    endDate := req.endDate.getD ""
    createdAt := now
    updatedAt := now }

/-- The two ways the profile-creation step can throw inside the route's
try block: a missing required field (mongoose ValidationError, or the
TypeError from splitting an absent skills input) and a storage failure. -/
inductive RegErr where
  | validation
  | persistence
deriving Repr, DecidableEq

/-- The `Student.create` step of registration: validates the required
fields, then persists when storage is available, appending the new record
and consuming a fresh identifier. -/
def studentCreate (db : DB) (uid : Nat) (req : RegisterReq) (now : Nat)
    (persistOk : Bool) : Except RegErr (DB × Student) :=
  if hasRequiredFields req then
    if persistOk then
      let st := mkStudent db.nextStudentId uid req now
      let db2 : DB :=
        { db with
          students := db.students ++ [st]
          nextStudentId := db.nextStudentId + 1 }
      .ok (db2, st)
    else .error .persistence
  else .error .validation

/-- Outcome of POST /api/register as seen by the caller.  `emailTaken` is
the 400 `'Email already registered'` response; `registrationFailed` is the
catch-all 500 `'Registration failed'` response, produced identically for
every error thrown inside the try block. -/
inductive RegisterResult where
  | success (token : Jwt) (user : UserView)
  | emailTaken
  | registrationFailed
deriving Repr, DecidableEq

/-- POST /api/register (server.js lines 86–137).  Checks the email, creates
the Account with role hard-coded to "student", then attempts the Student
record; an error thrown by that step is caught after the Account write, so
the Account stays in the store. -/
def register (db : DB) (req : RegisterReq) (now : Nat) (persistOk : Bool) :
    RegisterResult × DB :=
  match findUserByEmail db req.email with
  | some _ => (.emailTaken, db)
  | none =>
    let user : Account :=
      { id := db.nextUserId
        email := req.email
        passwordHash := bcryptHash req.password
        role := "student" }
    let db1 : DB :=
      { db with users := db.users ++ [user], nextUserId := db.nextUserId + 1 }
    match studentCreate db1 user.id req now persistOk with
    | .error _ => (.registrationFailed, db1)
    | .ok (db2, _) =>
      (.success (jwtSign { userId := user.id, role := user.role })
        { id := user.id, email := user.email, role := user.role }, db2)

/-- Outcome of GET /api/student/:userId. -/
inductive GetResult where
  | found (student : Student)
  | notFound
deriving Repr, DecidableEq

/-- GET /api/student/:userId (server.js lines 140–150). -/
def getStudent (db : DB) (uid : Nat) : GetResult :=
  match findStudentByUserId db uid with
  | some s => .found s
  | none => .notFound

/-- The PUT /api/student/:userId request body: a partial set of the
schema's updatable paths.  mongoose casts the plain object to a `$set`, so
any schema path present in the body — including `createdAt` — is written.
The body's own `updatedAt`, if any, is overwritten by the spread
`{ ...req.body, updatedAt: new Date() }` before it reaches the store, so it
is carried here but never read. -/
structure UpdateReq where
  email : Option String
  fullName : Option String
  department : Option String
  project : Option String
  skills : Option (List String)
  school : Option String
  course : Option String
  yearLevel : Option String
  contactNumber : Option String
  address : Option String
  startDate : Option String
  endDate : Option String
  createdAt : Option Nat
  updatedAt : Option Nat
deriving Repr, DecidableEq

/-- The `$set` applied by `findOneAndUpdate`: every field present in the
body overwrites the stored value, absent fields are untouched, and
`updatedAt` is set to the current time by the spread. -/
def applyUpdate (s : Student) (r : UpdateReq) (now : Nat) : Student :=
  { s with
    email := r.email.getD s.email
    fullName := r.fullName.getD s.fullName
    department := r.department.getD s.department
    project := match r.project with
      | some p => some p
      | none => s.project
    skills := r.skills.getD s.skills
    school := r.school.getD s.school
    course := r.course.getD s.course
    yearLevel := r.yearLevel.getD s.yearLevel
    contactNumber := r.contactNumber.getD s.contactNumber
    address := r.address.getD s.address
    startDate := r.startDate.getD s.startDate
    endDate := r.endDate.getD s.endDate
    createdAt := r.createdAt.getD s.createdAt
    updatedAt := now }

/-- Apply `f` to the first record whose userId matches, as
`findOneAndUpdate({ userId }, ...)` does. -/
def updateFirstByUserId (l : List Student) (uid : Nat)
    (f : Student → Student) : List Student :=
  match l with
  | [] => []
  | s :: rest =>
    if s.userId == uid then f s :: rest
    else s :: updateFirstByUserId rest uid f

/-- Outcome of PUT /api/student/:userId: the updated record (`new: true`)
or the 404 `'Student not found'`. -/
inductive UpdateResult where
  | success (student : Student)
  | notFound
deriving Repr, DecidableEq

/-- PUT /api/student/:userId (server.js lines 163–179). -/
def updateStudent (db : DB) (uid : Nat) (r : UpdateReq) (now : Nat) :
    UpdateResult × DB :=
  match findStudentByUserId db uid with
  | none => (.notFound, db)
  | some s =>
    (.success (applyUpdate s r now),
      { db with
        students := updateFirstByUserId db.students uid
          (fun t => applyUpdate t r now) })

/-- Outcome of DELETE /api/student/:studentId. -/
inductive DeleteResult where
  | success
  | notFound
deriving Repr, DecidableEq

/-- DELETE /api/student/:studentId (server.js lines 182–196): look the
Student record up by its own id (404 if absent, deleting nothing), then
delete the linked Account first and the Student record second.  Store
identifiers are unique, so `findByIdAndDelete` is removal of the records
carrying that id. -/
def deleteStudentRecord (db : DB) (sid : Nat) : DeleteResult × DB :=
  match findStudentById db sid with
  | none => (.notFound, db)
  | some st =>
    let db1 : DB := { db with users := db.users.filter (fun u => u.id != st.userId) }
    let db2 : DB := { db1 with students := db1.students.filter (fun s => s.id != sid) }
    (.success, db2)

/-! Concrete fixtures used by witnesses and counterexamples. -/

/-- An empty store with fresh identifiers starting at 1. -/
def exDb0 : DB := { users := [], students := [], nextUserId := 1, nextStudentId := 1 }

/-- A complete registration body, the scenario of spec §8. -/
def exReq : RegisterReq :=
  { email := "a@x.com"
    password := "p1"
    fullName := some "Ann"
    department := some "IT"
    project := some "Alpha"
    skills := some "go, rust, c"
    school := some "S"
    course := some "C"
    yearLevel := some "4"
    contactNumber := some "09"
    address := some "Addr"
    startDate := some "2024-01-01"
    endDate := some "2024-06-01"
    role := none }

/-- The same body with the required fullName field missing. -/
def exReqNoName : RegisterReq := { exReq with fullName := none }

/-- An account as stored after hashing. -/
def exAcct : Account :=
  { id := 1, email := "a@x.com", passwordHash := bcryptHash "p1", role := "student" }

/-- A store holding just that account. -/
def exDbA : DB := { users := [exAcct], students := [], nextUserId := 2, nextStudentId := 2 }

/-- A stored student record linked to account 1. -/
def exStudent : Student :=
  { id := 1
    userId := 1
    email := "a@x.com"
    fullName := "Ann"
    department := "IT"
    project := some "Alpha"
    skills := ["go"]
    school := "S"
    course := "C"
    yearLevel := "4"
    contactNumber := "09"
    address := "Addr"
    startDate := "2024-01-01"
    endDate := "2024-06-01"
    createdAt := 0
    updatedAt := 0 }

/-- A store holding that account and its profile. -/
def exDb1 : DB :=
  { users := [exAcct], students := [exStudent], nextUserId := 2, nextStudentId := 2 }

/-- An update body carrying only a new fullName. -/
def exUpd : UpdateReq :=
  { email := none, fullName := some "Bob", department := none, project := none
    skills := none, school := none, course := none, yearLevel := none
    contactNumber := none, address := none, startDate := none, endDate := none
    createdAt := none, updatedAt := none }

/-- An update body that smuggles a createdAt value. -/
def exUpdCreated : UpdateReq := { exUpd with createdAt := some 99 }

/-! Helper lemmas shared by the claim theorems. -/

/-- The Account record the register route writes. -/
def newAccount (db : DB) (req : RegisterReq) : Account :=
  { id := db.nextUserId
    email := req.email
    passwordHash := bcryptHash req.password
    role := "student" }

theorem bcryptCompare_hash_self (p : String) :
    bcryptCompare p (bcryptHash p) = true := by
  simp [bcryptCompare]

/-- Inversion of a successful register: the email was free, the body was
complete, storage was up, and the outputs and the new store are exactly the
records the route builds. -/
theorem register_success_inv
    (db : DB) (req : RegisterReq) (now : Nat) (pOk : Bool)
    (tok : Jwt) (view : UserView) (db' : DB)
    (h : register db req now pOk = (.success tok view, db')) :
    findUserByEmail db req.email = none ∧ hasRequiredFields req = true ∧
    pOk = true ∧
    tok = jwtSign { userId := db.nextUserId, role := "student" } ∧
    view = { id := db.nextUserId, email := req.email, role := "student" } ∧
    db'.users = db.users ++ [newAccount db req] ∧
    db'.students =
      db.students ++ [mkStudent db.nextStudentId db.nextUserId req now] := by
  cases hfind : findUserByEmail db req.email with
  | some u => simp [register, hfind] at h
  | none =>
    cases hreq : hasRequiredFields req with
    | false => simp [register, studentCreate, hfind, hreq] at h
    | true =>
      cases pOk with
      | false => simp [register, studentCreate, hfind, hreq] at h
      | true =>
        simp only [register, studentCreate, hfind, hreq, if_true,
          Prod.mk.injEq, RegisterResult.success.injEq] at h
        obtain ⟨⟨htok, hview⟩, hdb⟩ := h
        subst hdb
        exact ⟨rfl, rfl, rfl, htok.symm, hview.symm, rfl, rfl⟩

/-- Claim C1: for every account created by register, a subsequent login with
the same email and correct password succeeds, returns the very session token
issued at registration — hence decoding to the same accountId and role — and
the same public account view (id, email, role), whose role is "student" and
whose email is the registered email. -/
theorem register_then_login_roundtrip
    (db : DB) (req : RegisterReq) (now : Nat) (pOk : Bool)
    (tok : Jwt) (view : UserView) (db' : DB)
    (h : register db req now pOk = (.success tok view, db')) :
    login db' req.email req.password = .success view.role tok view ∧
    jwtDecode tok = { userId := view.id, role := view.role } ∧
    view.role = "student" ∧ view.email = req.email := by
  obtain ⟨hfind, hreq, hpok, htok, hview, husers, hstud⟩ :=
    register_success_inv db req now pOk tok view db' h
  subst htok hview
  have hfind' : findUserByEmail db' req.email = some (newAccount db req) := by
    unfold findUserByEmail at hfind ⊢
    rw [husers, List.find?_append, hfind]
    simp [newAccount]
  refine ⟨?_, rfl, rfl, rfl⟩
  simp [login, hfind', newAccount, bcryptCompare_hash_self, jwtSign]

/-- Witness for C1 at a concrete store and body. -/
theorem register_then_login_roundtrip_witness :
    login (register exDb0 exReq 0 true).2 "a@x.com" "p1" =
      .success "student" (jwtSign { userId := 1, role := "student" })
        { id := 1, email := "a@x.com", role := "student" } := by
  have h := register_then_login_roundtrip exDb0 exReq 0 true
    (jwtSign { userId := 1, role := "student" })
    { id := 1, email := "a@x.com", role := "student" }
    (register exDb0 exReq 0 true).2 rfl
  exact h.1

/-- Claim C2: login with a wrong password for an existing email and login
with an email for which no account exists produce exactly the same failure
outcome, the single 401 invalid-credentials response, so the two cases are
indistinguishable to the caller. -/
theorem login_failure_indistinguishable
    (dbMiss dbHit : DB) (eMiss eHit pMiss pHit : String) (u : Account)
    (h1 : findUserByEmail dbMiss eMiss = none)
    (h2 : findUserByEmail dbHit eHit = some u)
    (h3 : bcryptCompare pHit u.passwordHash = false) :
    login dbHit eHit pHit = .invalidCredentials ∧
    login dbMiss eMiss pMiss = .invalidCredentials ∧
    login dbHit eHit pHit = login dbMiss eMiss pMiss := by
  simp [login, h1, h2, h3]

/-- Witness for C2: wrong password against the stored account versus a
nonexistent email. -/
theorem login_failure_indistinguishable_witness :
    login exDbA "a@x.com" "wrong" = .invalidCredentials ∧
    login exDbA "ghost@x.com" "p1" = .invalidCredentials ∧
    login exDbA "a@x.com" "wrong" = login exDbA "ghost@x.com" "p1" :=
  login_failure_indistinguishable exDbA exDbA "ghost@x.com" "a@x.com"
    "p1" "wrong" exAcct rfl rfl rfl

/-- Claim C3: when an account with the requested email already exists,
register fails with the EmailTaken outcome and returns the store unchanged,
so no second account with that email is created. -/
theorem register_email_taken_unchanged
    (db : DB) (req : RegisterReq) (now : Nat) (pOk : Bool) (u : Account)
    (h : findUserByEmail db req.email = some u) :
    register db req now pOk = (.emailTaken, db) := by
  simp [register, h]

/-- Witness for C3 on the store already holding a@x.com. -/
theorem register_email_taken_unchanged_witness :
    register exDbA exReq 0 true = (.emailTaken, exDbA) :=
  register_email_taken_unchanged exDbA exReq 0 true exAcct rfl

/-- Counterexample to claim C4: a register body with a missing required
profile field (fullName absent) produces exactly the same caller-visible
outcome — the generic 500 'Registration failed' — as a register whose
profile-creation step hits a storage failure.  The validation failure is
therefore NOT reported as an outcome distinguishable from the generic
persistence failure. -/
theorem register_missing_field_same_as_persistence_cex :
    (register exDb0 exReqNoName 0 true).1 = .registrationFailed ∧
    (register exDb0 exReq 0 false).1 = .registrationFailed ∧
    (register exDb0 exReqNoName 0 true).1 = (register exDb0 exReq 0 false).1 :=
  ⟨rfl, rfl, rfl⟩

/-- Claim C4 (amended): for every register input with a required profile
field missing, register fails — but under the generic catch-all outcome
(500 'Registration failed'), which is identical to the outcome of any
register run whose profile-persistence step fails, so the two failure kinds
are not distinguishable to the caller. -/
theorem register_missing_field_generic_failure
    (db : DB) (req : RegisterReq) (now : Nat) (pOk : Bool)
    (hmail : findUserByEmail db req.email = none)
    (hmiss : hasRequiredFields req = false) :
    (register db req now pOk).1 = .registrationFailed ∧
    ∀ db₂ req₂ now₂, findUserByEmail db₂ req₂.email = none →
      (register db₂ req₂ now₂ false).1 = (register db req now pOk).1 := by
  constructor
  · simp [register, studentCreate, hmail, hmiss]
  · intro db₂ req₂ now₂ h₂
    cases hr : hasRequiredFields req₂ <;>
      simp [register, studentCreate, hmail, hmiss, h₂, hr]

/-- Witness for the amended C4 at concrete inputs. -/
theorem register_missing_field_generic_failure_witness :
    (register exDb0 exReqNoName 0 true).1 = .registrationFailed ∧
    (register exDb0 exReq 5 false).1 = (register exDb0 exReqNoName 0 true).1 := by
  have h := register_missing_field_generic_failure exDb0 exReqNoName 0 true rfl rfl
  exact ⟨h.1, h.2 exDb0 exReq 5 rfl⟩

/-- Claim C5: when the account write succeeds but the profile-creation step
fails (missing required field or storage failure), register reports the
generic failure, yet the new account stays in the credential store: the
users list has gained exactly that account, no student record was written,
the email now resolves to the orphaned account, the account has no profile,
and every later register with that email fails with EmailTaken. -/
theorem register_orphan_account_persists
    (db : DB) (req : RegisterReq) (now : Nat) (pOk : Bool)
    (hmail : findUserByEmail db req.email = none)
    (hfail : (hasRequiredFields req && pOk) = false) :
    (register db req now pOk).1 = .registrationFailed ∧
    (register db req now pOk).2.users = db.users ++ [newAccount db req] ∧
    (register db req now pOk).2.students = db.students ∧
    findUserByEmail (register db req now pOk).2 req.email =
      some (newAccount db req) ∧
    ((∀ s ∈ db.students, s.userId ≠ db.nextUserId) →
      getStudent (register db req now pOk).2 db.nextUserId = .notFound) ∧
    (∀ req₂ now₂ pOk₂, req₂.email = req.email →
      register (register db req now pOk).2 req₂ now₂ pOk₂ =
        (.emailTaken, (register db req now pOk).2)) := by
  have hred : register db req now pOk =
      (.registrationFailed,
        { db with users := db.users ++ [newAccount db req]
                  nextUserId := db.nextUserId + 1 }) := by
    cases hreq : hasRequiredFields req with
    | false => simp [register, studentCreate, hmail, hreq, newAccount]
    | true =>
      cases hp : pOk with
      | false => simp [register, studentCreate, hmail, hreq, newAccount]
      | true => rw [hreq, hp] at hfail; simp at hfail
  rw [hred]
  have hfindNew : findUserByEmail
      { db with users := db.users ++ [newAccount db req]
                nextUserId := db.nextUserId + 1 } req.email =
      some (newAccount db req) := by
    unfold findUserByEmail at hmail ⊢
    simp only [List.find?_append, hmail]
    simp [newAccount]
  refine ⟨rfl, rfl, rfl, hfindNew, ?_, ?_⟩
  · intro hfresh
    have : findStudentByUserId
        { db with users := db.users ++ [newAccount db req]
                  nextUserId := db.nextUserId + 1 } db.nextUserId = none := by
      unfold findStudentByUserId
      rw [List.find?_eq_none]
      intro s hs
      simp only [beq_iff_eq]
      exact hfresh s hs
    simp [getStudent, this]
  · intro req₂ now₂ pOk₂ hmail₂
    have : findUserByEmail
        { db with users := db.users ++ [newAccount db req]
                  nextUserId := db.nextUserId + 1 } req₂.email =
        some (newAccount db req) := by rw [hmail₂]; exact hfindNew
    simp [register, this]

/-- Witness for C5: a failed profile step leaves the account, and a retry
with the same email is rejected with EmailTaken. -/
theorem register_orphan_account_persists_witness :
    (register exDb0 exReqNoName 0 true).1 = .registrationFailed ∧
    register (register exDb0 exReqNoName 0 true).2 exReq 3 true =
      (.emailTaken, (register exDb0 exReqNoName 0 true).2) := by
  have h := register_orphan_account_persists exDb0 exReqNoName 0 true rfl rfl
  exact ⟨h.1, h.2.2.2.2.2 exReq 3 true rfl⟩

/-- Claim C6: every successful register appends exactly one student record,
linked to the returned account id, whose skills field is the comma-split,
per-piece-trimmed, empty-dropped sequence derived from the skills input
(order preserved by the split), and whose project field carries the given
project value exactly when the department input is "IT" and is absent
otherwise, even when a project value was supplied. -/
theorem register_skills_project_derivation
    (db : DB) (req : RegisterReq) (now : Nat) (pOk : Bool)
    (tok : Jwt) (view : UserView) (db' : DB)
    (h : register db req now pOk = (.success tok view, db'))
    (sk d : String) (hsk : req.skills = some sk) (hd : req.department = some d) :
    ∃ st : Student,
      db'.students = db.students ++ [st] ∧
      st.userId = view.id ∧
      st.skills = ((splitComma sk).map jsTrim).filter (fun x => x != "") ∧
      st.project = (if d = "IT" then req.project else none) := by
  obtain ⟨hfind, hreq, hpok, htok, hview, husers, hstud⟩ :=
    register_success_inv db req now pOk tok view db' h
  refine ⟨mkStudent db.nextStudentId db.nextUserId req now, hstud, ?_, ?_, ?_⟩
  · subst hview; rfl
  · simp [mkStudent, splitSkills, hsk]
  · by_cases hIT : d = "IT" <;> simp [mkStudent, hd, hIT]

/-- Witness for C6, the scenario of spec §8: skills "go, rust, c" with
department "IT" and project "Alpha". -/
theorem register_skills_project_derivation_witness :
    ∃ st : Student,
      (register exDb0 exReq 0 true).2.students = exDb0.students ++ [st] ∧
      st.userId = 1 ∧
      st.skills = ["go", "rust", "c"] ∧
      st.project = some "Alpha" := by
  obtain ⟨st, h1, h2, h3, h4⟩ := register_skills_project_derivation exDb0 exReq 0 true
    (jwtSign { userId := 1, role := "student" })
    { id := 1, email := "a@x.com", role := "student" }
    (register exDb0 exReq 0 true).2 rfl "go, rust, c" "IT" rfl rfl
  refine ⟨st, h1, h2, ?_, ?_⟩
  · rw [h3]; rfl
  · rw [h4]; rfl

theorem applyUpdate_userId (s : Student) (r : UpdateReq) (now : Nat) :
    (applyUpdate s r now).userId = s.userId := rfl

/-- Updating the first matching record keeps it the first match when the
update preserves the key. -/
theorem find?_updateFirstByUserId
    (l : List Student) (uid : Nat) (f : Student → Student) (s : Student)
    (hf : ∀ t, (f t).userId = t.userId)
    (h : l.find? (fun t => t.userId == uid) = some s) :
    (updateFirstByUserId l uid f).find? (fun t => t.userId == uid) =
      some (f s) := by
  induction l with
  | nil => simp at h
  | cons a rest ih =>
    cases ha : (a.userId == uid) with
    | true =>
      rw [@List.find?_cons_of_pos _ (fun t => t.userId == uid) a rest ha] at h
      have has : a = s := by injection h
      subst has
      simp only [updateFirstByUserId, ha, if_true]
      exact @List.find?_cons_of_pos _ (fun t => t.userId == uid) (f a) rest
        (by show ((f a).userId == uid) = true; rw [hf a]; exact ha)
    | false =>
      rw [@List.find?_cons_of_neg _ (fun t => t.userId == uid) a rest
        (by simp [ha])] at h
      simp only [updateFirstByUserId, ha, Bool.false_eq_true, if_false]
      rw [@List.find?_cons_of_neg _ (fun t => t.userId == uid) a
        (updateFirstByUserId rest uid f) (by simp [ha])]
      exact ih h

/-- Claim C7: update on an accountId with no linked profile fails with
NotFound and leaves the store unchanged; update on an existing profile
returns (and stores, still first under its accountId) the record in which
every schema field present in the body overwrites the stored value, every
field absent from the body keeps its stored value, and updatedAt is set to
the current time — strictly later than createdAt whenever the call happens
after creation and the body does not itself smuggle a createdAt. -/
theorem update_merge_frame
    (db : DB) (uid : Nat) (r : UpdateReq) (now : Nat) :
    (findStudentByUserId db uid = none →
      updateStudent db uid r now = (.notFound, db)) ∧
    (∀ s, findStudentByUserId db uid = some s →
      (updateStudent db uid r now).1 = .success (applyUpdate s r now) ∧
      findStudentByUserId (updateStudent db uid r now).2 uid =
        some (applyUpdate s r now) ∧
      (applyUpdate s r now).email = r.email.getD s.email ∧
      (applyUpdate s r now).fullName = r.fullName.getD s.fullName ∧
      (applyUpdate s r now).department = r.department.getD s.department ∧
      (applyUpdate s r now).project = r.project.or s.project ∧
      (applyUpdate s r now).skills = r.skills.getD s.skills ∧
      (applyUpdate s r now).school = r.school.getD s.school ∧
      (applyUpdate s r now).course = r.course.getD s.course ∧
      (applyUpdate s r now).yearLevel = r.yearLevel.getD s.yearLevel ∧
      (applyUpdate s r now).contactNumber = r.contactNumber.getD s.contactNumber ∧
      (applyUpdate s r now).address = r.address.getD s.address ∧
      (applyUpdate s r now).startDate = r.startDate.getD s.startDate ∧
      (applyUpdate s r now).endDate = r.endDate.getD s.endDate ∧
      (applyUpdate s r now).userId = s.userId ∧
      (applyUpdate s r now).updatedAt = now ∧
      (r.createdAt = none → s.createdAt < now →
        (applyUpdate s r now).createdAt < (applyUpdate s r now).updatedAt)) := by
  constructor
  · intro h
    simp [updateStudent, h]
  · intro s h
    have hstep : (updateStudent db uid r now).1 = .success (applyUpdate s r now) := by
      simp [updateStudent, h]
    have hstore : findStudentByUserId (updateStudent db uid r now).2 uid =
        some (applyUpdate s r now) := by
      unfold updateStudent
      rw [h]
      unfold findStudentByUserId at h ⊢
      exact find?_updateFirstByUserId db.students uid
        (fun t => applyUpdate t r now) s (fun t => rfl) h
    refine ⟨hstep, hstore, rfl, rfl, rfl, ?_, rfl, rfl, rfl, rfl, rfl, rfl,
      rfl, rfl, rfl, rfl, ?_⟩
    · cases hp : r.project <;> simp [applyUpdate, hp]
    · intro hc hlt
      simp [applyUpdate, hc]
      exact hlt

/-- Witness for C7: a body carrying only fullName updates that field and
refreshes updatedAt. -/
theorem update_merge_frame_witness :
    (updateStudent exDb1 1 exUpd 5).1 = .success (applyUpdate exStudent exUpd 5) ∧
    (applyUpdate exStudent exUpd 5).fullName = "Bob" ∧
    (applyUpdate exStudent exUpd 5).department = "IT" ∧
    (applyUpdate exStudent exUpd 5).updatedAt = 5 ∧
    (applyUpdate exStudent exUpd 5).createdAt < (applyUpdate exStudent exUpd 5).updatedAt := by
  have h := (update_merge_frame exDb1 1 exUpd 5).2 exStudent rfl
  exact ⟨h.1, rfl, rfl, rfl,
    h.2.2.2.2.2.2.2.2.2.2.2.2.2.2.2.2 rfl (by decide)⟩

/-- Counterexample to claim C8: the route spreads the whole request body
into the `$set`, so an update body that itself carries a createdAt field
overwrites the stored createdAt — it is not immutable.  Here the stored
value 0 becomes 99, both in the returned record and in the store. -/
theorem createdAt_overwritten_cex :
    exStudent.createdAt = 0 ∧
    (updateStudent exDb1 1 exUpdCreated 5).1 =
      .success (applyUpdate exStudent exUpdCreated 5) ∧
    (applyUpdate exStudent exUpdCreated 5).createdAt = 99 ∧
    (findStudentByUserId (updateStudent exDb1 1 exUpdCreated 5).2 1).map
      Student.createdAt = some 99 :=
  ⟨rfl, rfl, rfl, rfl⟩

/-- Claim C8 (amended): createdAt is unchanged by every update whose body
does not itself contain a createdAt field; a body containing createdAt
overwrites it (see the counterexample). -/
theorem createdAt_unchanged_without_input_field
    (db : DB) (uid : Nat) (r : UpdateReq) (now : Nat) (s : Student)
    (h : findStudentByUserId db uid = some s) (hc : r.createdAt = none) :
    (updateStudent db uid r now).1 = .success (applyUpdate s r now) ∧
    (applyUpdate s r now).createdAt = s.createdAt ∧
    findStudentByUserId (updateStudent db uid r now).2 uid =
      some (applyUpdate s r now) := by
  refine ⟨?_, ?_, ?_⟩
  · simp [updateStudent, h]
  · simp [applyUpdate, hc]
  · unfold updateStudent
    rw [h]
    unfold findStudentByUserId at h ⊢
    exact find?_updateFirstByUserId db.students uid
      (fun t => applyUpdate t r now) s (fun t => rfl) h

/-- Witness for the amended C8 at a concrete store. -/
theorem createdAt_unchanged_without_input_field_witness :
    (applyUpdate exStudent exUpd 5).createdAt = exStudent.createdAt :=
  (createdAt_unchanged_without_input_field exDb1 1 exUpd 5 exStudent rfl rfl).2.1

/-- Claim C9: the delete route looks the profile up by its own record id —
failing with NotFound and deleting nothing when no such record exists —
and otherwise removes the linked account (first) and the profile record
(second), after which the account is gone, the record is gone, and, in any
store where at most one profile is linked to that account,
getStudent for that accountId answers NotFound. -/
theorem delete_cascades_account_and_profile
    (db : DB) (sid : Nat) :
    (findStudentById db sid = none →
      deleteStudentRecord db sid = (.notFound, db)) ∧
    (∀ st, findStudentById db sid = some st →
      (deleteStudentRecord db sid).1 = .success ∧
      findUserById (deleteStudentRecord db sid).2 st.userId = none ∧
      findStudentById (deleteStudentRecord db sid).2 sid = none ∧
      ((∀ t ∈ db.students, t.userId = st.userId → t.id = st.id) →
        getStudent (deleteStudentRecord db sid).2 st.userId = .notFound)) := by
  constructor
  · intro h
    simp [deleteStudentRecord, h]
  · intro st h
    have hid : st.id = sid := by
      have := List.find?_some h
      simpa using this
    have hred : (deleteStudentRecord db sid).2 =
        { db with
          users := db.users.filter (fun u => u.id != st.userId)
          students := db.students.filter (fun s => s.id != sid) } := by
      simp [deleteStudentRecord, h]
    refine ⟨by simp [deleteStudentRecord, h], ?_, ?_, ?_⟩
    · rw [hred]
      unfold findUserById
      rw [List.find?_eq_none]
      intro u hu
      rw [List.mem_filter] at hu
      simp only [bne_iff_ne, ne_eq] at hu
      simp only [beq_iff_eq]
      exact hu.2
    · rw [hred]
      unfold findStudentById
      rw [List.find?_eq_none]
      intro t ht
      rw [List.mem_filter] at ht
      simp only [bne_iff_ne, ne_eq] at ht
      simp only [beq_iff_eq]
      exact ht.2
    · intro huniq
      have hnone : findStudentByUserId (deleteStudentRecord db sid).2 st.userId = none := by
        rw [hred]
        unfold findStudentByUserId
        rw [List.find?_eq_none]
        intro t ht
        rw [List.mem_filter] at ht
        simp only [bne_iff_ne, ne_eq] at ht
        simp only [beq_iff_eq]
        intro hsame
        exact ht.2 ((huniq t ht.1 hsame).trans hid)
      simp [getStudent, hnone]

/-- Witness for C9 on the one-account one-profile store. -/
theorem delete_cascades_account_and_profile_witness :
    (deleteStudentRecord exDb1 1).1 = .success ∧
    findUserById (deleteStudentRecord exDb1 1).2 1 = none ∧
    getStudent (deleteStudentRecord exDb1 1).2 1 = .notFound := by
  have h := (delete_cascades_account_and_profile exDb1 1).2 exStudent rfl
  exact ⟨h.1, h.2.1, h.2.2.2 (by decide)⟩

/-- Claim C10: the extra fields of the register body — in particular any
caller-supplied role — have no influence on register at all (replacing the
role field yields the identical outcome and store), and every account a
successful register creates has role "student", as does the role embedded
in the issued session token; register can never create an admin account. -/
theorem register_role_always_student
    (db : DB) (req : RegisterReq) (now : Nat) (pOk : Bool) :
    (∀ r, register db { req with role := r } now pOk =
      register db req now pOk) ∧
    (∀ tok view db', register db req now pOk = (.success tok view, db') →
      view.role = "student" ∧ (jwtDecode tok).role = "student" ∧
      ∀ u, u ∈ db'.users → u ∉ db.users → u.role = "student") := by
  constructor
  · intro r
    rfl
  · intro tok view db' h
    obtain ⟨hfind, hreq, hpok, htok, hview, husers, hstud⟩ :=
      register_success_inv db req now pOk tok view db' h
    subst htok hview
    refine ⟨rfl, rfl, ?_⟩
    intro u hin hnotin
    rw [husers] at hin
    rcases List.mem_append.mp hin with hold | hnew
    · exact absurd hold hnotin
    · have : u = newAccount db req := by simpa using hnew
      rw [this]
      rfl

/-- Witness for C10: a body claiming role "admin" registers identically to
one with no role field, and the resulting view role is "student". -/
theorem register_role_always_student_witness :
    register exDb0 { exReq with role := some "admin" } 0 true =
      register exDb0 exReq 0 true ∧
    ({ id := 1, email := "a@x.com", role := "student" } : UserView).role =
      "student" := by
  have h := register_role_always_student exDb0 exReq 0 true
  refine ⟨h.1 (some "admin"), ?_⟩
  exact (h.2 (jwtSign { userId := 1, role := "student" })
    { id := 1, email := "a@x.com", role := "student" }
    (register exDb0 exReq 0 true).2 rfl).1
